import Mathlib

/-!
Verification of the Claude-Code-Remote Telegram session/token core.

Shallow embedding of two source files:
  * the Telegram webhook handler (`TelegramWebhookHandler`): message/callback
    handling, the command-format regexes, session lookup/expiry and removal;
  * the Telegram notification channel (`TelegramChannel`): token generation,
    session creation, the outbound message formatter and send-failure cleanup.

Strings are modelled as `List Char` (JS strings over their characters).
`String.length` in JS counts UTF-16 units while here lists count scalar
values; the only places where lengths matter numerically (the outbound
message budget) use the model's own length consistently, so the claims about
the budget arithmetic are measure-independent.

The `PersistentSessionManager` module is not part of the provided sources;
the two entry points the webhook handler calls on it are modelled from the
spec and marked as such below.  All other definitions are translated from
the source.
-/

/-! ## JS character classes and string helpers -/

/-- The whitespace class of the JS regex `\s` and of `String.prototype.trim`
(restricted to the characters that can actually occur in the claims; full JS
also admits further Unicode space separators). -/
def isJsWs (c : Char) : Bool :=
  c == ' ' || c == '\t' || c == '\n' || c == '\r' || c == '\x0b' || c == '\x0c' || c == '\u00A0'

/-- JS line terminators, which the regex `.` does not match. -/
def isLineTerm (c : Char) : Bool :=
  c == '\n' || c == '\r' || c == '\u2028' || c == '\u2029'

/-- What a single JS regex `.` accepts. -/
def dotOk (c : Char) : Bool := !(isLineTerm c)

/-- `String.prototype.trim`. -/
def jsTrim (l : List Char) : List Char :=
  ((l.dropWhile isJsWs).reverse.dropWhile isJsWs).reverse

/-- `String.prototype.toUpperCase` (ASCII; tokens are ASCII alphanumerics). -/
def upperL (l : List Char) : List Char := l.map Char.toUpper

/-- Does `l` start with `p`?  (JS `String.prototype.startsWith`.) -/
def leadsWith : List Char → List Char → Bool
  | [], _ => true
  | _ :: _, [] => false
  | p :: ps, c :: cs => p == c && leadsWith ps cs

/-- JS `String.prototype.includes`. -/
def hasSeq (needle : List Char) : List Char → Bool
  | [] => needle.isEmpty
  | c :: rest => leadsWith needle (c :: rest) || hasSeq needle rest

/-- JS `String.prototype.split` with a one-character separator: split at every
occurrence, keeping empty pieces. -/
def jsSplit (sep : Char) : List Char → List (List Char)
  | [] => [[]]
  | c :: rest =>
    let r := jsSplit sep rest
    if c == sep then [] :: r
    else
      match r with
      | h :: t => (c :: h) :: t
      | [] => [[c]]

/-- JS `Array.prototype.join` with separator `:` (inverse of `jsSplit`). -/
def joinColon : List (List Char) → List Char
  | [] => []
  | [p] => p
  | p :: ps => p ++ ':' :: joinColon ps

/-! ## The command-format regexes (`_handleMessage`, lines 112-138)

The three patterns are
  format 1: `/^\/cmd([A-Z0-9]{8})\s+(.+)$/i`
  format 2: `/^\/cmd\s+([A-Z0-9]{8})\s+(.+)$/i`
  format 3: `/^([A-Z0-9]{8})\s+(.+)$/`   (note: no `i` flag)
modelled by direct matchers with the engine's greedy-plus-backtracking
behaviour for the `\s+(.+)$` tail. -/

/-- The token class `[A-Z0-9]` under the `i` flag: ASCII letters and digits. -/
def isTokenCharCI (c : Char) : Bool := c.isAlphanum

/-- The token class `[A-Z0-9]` without the `i` flag. -/
def isTokenCharUC (c : Char) : Bool := c.isUpper || c.isDigit

/-- `(.+)$` (no `m` flag): nonempty and free of line terminators. -/
def cmdOk (l : List Char) : Bool := !l.isEmpty && l.all dotOk

/-- Backtracking for `\s+(.+)$`: `wsRev` is the reversed maximal whitespace
run; hand back whitespace characters one by one (keeping `\s+` nonempty)
until the remainder satisfies `(.+)$`. -/
def seekCmd : List Char → List Char → Option (List Char)
  | [], _ => none
  | w :: wsRest, cmd => if cmdOk cmd then some cmd else seekCmd wsRest (w :: cmd)

/-- Match `\s+(.+)$` against `s`, returning the command capture. -/
def matchSepCmd (s : List Char) : Option (List Char) :=
  seekCmd (s.takeWhile isJsWs).reverse (s.dropWhile isJsWs)

/-- Take exactly `n` characters satisfying `p` (the `{8}` counted class). -/
def takeChars : Nat → (Char → Bool) → List Char → Option (List Char × List Char)
  | 0, _, l => some ([], l)
  | _ + 1, _, [] => none
  | n + 1, p, c :: cs =>
    if p c then (takeChars n p cs).map (fun r => (c :: r.1, r.2)) else none

/-- Match the literal `\/cmd` under the `i` flag and return the rest. -/
def stripSlashCmd (s : List Char) : Option (List Char) :=
  match s with
  | a :: b :: c :: d :: rest =>
    if a == '/' && b.toLower == 'c' && c.toLower == 'm' && d.toLower == 'd'
    then some rest else none
  | _ => none

/-- Format 1, `/cmdTOKEN command`; the captured token is uppercased
(`newFormatMatch[1].toUpperCase()`). -/
def parseAttached (s : List Char) : Option (List Char × List Char) :=
  match stripSlashCmd s with
  | some rest =>
    match takeChars 8 isTokenCharCI rest with
    | some (tok, rest2) =>
      match matchSepCmd rest2 with
      | some cmd => some (upperL tok, cmd)
      | none => none
    | none => none
  | none => none

/-- Format 2, `/cmd TOKEN command`. -/
def parseSpaced (s : List Char) : Option (List Char × List Char) :=
  match stripSlashCmd s with
  | some rest =>
    if (rest.takeWhile isJsWs).isEmpty then none
    else
      match takeChars 8 isTokenCharCI (rest.dropWhile isJsWs) with
      | some (tok, rest2) =>
        match matchSepCmd rest2 with
        | some cmd => some (upperL tok, cmd)
        | none => none
      | none => none
  | none => none

/-- Format 3, bare `TOKEN command` (case-sensitive token class). -/
def parseBare (s : List Char) : Option (List Char × List Char) :=
  match takeChars 8 isTokenCharUC s with
  | some (tok, rest) =>
    match matchSepCmd rest with
    | some cmd => some (upperL tok, cmd)
    | none => none
  | none => none

/-- The ordered format cascade of `_handleMessage`. -/
def parseFormats (s : List Char) : Option (List Char × List Char) :=
  match parseAttached s with
  | some r => some r
  | none =>
    match parseSpaced s with
    | some r => some r
    | none => parseBare s

/-! ## Data model -/

/-- A session record, the union of the fields the modelled code reads/writes
(`_createSession` in the channel; the lookup conversion in the webhook
handler).  The ISO-string duplicates `created`/`expires`, the `type` tag and
the embedded notification are never read by the modelled code and are
omitted. -/
structure Session where
  id : List Char
  token : List Char
  tmuxSession : Option (List Char)
  project : List Char
  createdAt : Nat
  expiresAt : Nat
deriving DecidableEq, Repr

/-- The session store: the per-session JSON files of `sessionsDir`, plus the
current-session-per-chat pointer kept by the persistent session manager. -/
structure SessionStore where
  files : List Session
  currentByChat : List (Int × Session)
deriving DecidableEq, Repr

/-- Notification metadata (`notification.metadata`); JS-absent fields are
modelled as the empty (falsy) string. -/
structure NotifMetadata where
  userQuestion : List Char
  claudeResponse : List Char
  tmuxSession : List Char
deriving DecidableEq, Repr

/-- An outbound notification as read by the channel. -/
structure Notification where
  type : List Char
  project : List Char
  metadata : Option NotifMetadata
deriving DecidableEq, Repr

/-- Channel/webhook configuration; `none` and `some []` are both JS-falsy. -/
structure TelegramConfig where
  botToken : Option (List Char)
  chatId : Option (List Char)
  groupId : Option (List Char)
  whitelist : List (List Char)
deriving DecidableEq, Repr

/-- JS truthiness of an optional string. -/
def jsTruthy : Option (List Char) → Bool
  | none => false
  | some s => !s.isEmpty

/-- JS `a || b` on optional strings. -/
def jsOrOpt (a b : Option (List Char)) : Option (List Char) :=
  if jsTruthy a then a else b

/-- `session.tmuxSession || 'default'` (line 164 of the webhook handler). -/
def tmuxOrDefault : Option (List Char) → List Char
  | some t => if t.isEmpty then "default".data else t
  | none => "default".data

/-! ## Session store operations -/

/-- Modelled from the spec: `PersistentSessionManager.getSessionByToken` is
not under `src/`.  Per the spec the store keeps one record per session,
keyed by token, and tokens are "always normalized to uppercase before
compare/store" at lookup time. -/
def getSessionByToken (store : SessionStore) (tok : List Char) : Option Session :=
  store.files.find? (fun s => upperL s.token == upperL tok)

/-- Modelled from the spec: `PersistentSessionManager.getCurrentChatSession`
is not under `src/`.  Per the spec each chat context has at most one
"current" session pointer for reply-shortcut resolution. -/
def getCurrentChatSession (store : SessionStore) (chat : Int) : Option Session :=
  (store.currentByChat.find? (fun p => p.1 == chat)).map (fun p => p.2)

/-- `_findSessionByToken`: the persistent-manager lookup first, then the
legacy fallback scan over the session files, which compares the token
verbatim (`session.token === token`). -/
def findSessionByToken (store : SessionStore) (tok : List Char) : Option Session :=
  match getSessionByToken store tok with
  | some s => some s
  | none => store.files.find? (fun s => s.token == tok)

/-- `_removeSession`: delete the per-session file named by the id (a no-op
when absent). -/
def removeSession (store : SessionStore) (id : List Char) : SessionStore :=
  { store with files := store.files.filter (fun s => !(s.id == id)) }

/-- `fs.writeFileSync` of a session record: replaces any record at the same
id, otherwise adds the record. -/
def putSessionFile (store : SessionStore) (s : Session) : SessionStore :=
  { store with files := store.files.filter (fun r => !(r.id == s.id)) ++ [s] }

/-! ## Inbound command processing (`_processCommand`, lines 143-181) -/

/-- Observable outcome of `_processCommand`: which reply the operator gets
and whether the command was handed to the tmux injector.  An injector
error only changes the reply text, not the store, and is not distinguished
here. -/
inductive CmdOutcome
  | invalidToken
  | expired (id : List Char)
  | dispatched (command tmux : List Char)
deriving DecidableEq, Repr

/-- `_processCommand`: look the token up, reject unknown tokens, eagerly
delete expired sessions (`session.expiresAt < Math.floor(Date.now()/1000)`),
otherwise inject the command into the session's tmux target. -/
def processCommand (store : SessionStore) (now : Nat) (tok cmd : List Char) :
    CmdOutcome × SessionStore :=
  match findSessionByToken store tok with
  | none => (.invalidToken, store)
  | some s =>
    if s.expiresAt < now then (.expired s.id, removeSession store s.id)
    else (.dispatched cmd (tmuxOrDefault s.tmuxSession), store)

/-! ## Authorization (`_isAuthorized`, lines 257-274) -/

/-- `_isAuthorized`: whitelist check on `String(chatId)`/`String(userId)`;
with no whitelist, fall back to the single configured chat/group id. -/
def isAuthorized (cfg : TelegramConfig) (userId chatId : Int) : Bool :=
  let cid := (toString chatId).data
  let uid := (toString userId).data
  if cfg.whitelist.contains cid || cfg.whitelist.contains uid then true
  else if cfg.whitelist.isEmpty then
    match jsOrOpt cfg.chatId cfg.groupId with
    | some c => !c.isEmpty && cid == c
    | none => false
  else false

/-! ## Message handling (`_handleMessage`, lines 75-141) -/

/-- The fields of a Telegram message update the handler reads.
`replyFromBot` is `message.reply_to_message && message.reply_to_message.from
&& message.reply_to_message.from.is_bot`. -/
structure IncomingMessage where
  chatId : Int
  userId : Int
  text : Option (List Char)
  replyFromBot : Bool
deriving DecidableEq, Repr

/-- Observable outcome of `_handleMessage` (which reply was sent / which
dispatch happened). -/
inductive MsgOutcome
  | ignored
  | unauthorized
  | welcome
  | help
  | replyDispatch (token command : List Char) (res : CmdOutcome)
  | cmdDispatch (token command : List Char) (res : CmdOutcome)
  | invalidFormat
deriving DecidableEq, Repr

/-- `_handleMessage`: trim, drop empty, authorize, `/start` and `/help`,
reply-shortcut via the chat's current session, then the format cascade. -/
def handleMessage (cfg : TelegramConfig) (store : SessionStore) (now : Nat)
    (m : IncomingMessage) : MsgOutcome × SessionStore :=
  match m.text with
  | none => (.ignored, store)
  | some raw =>
    let t := jsTrim raw
    if t.isEmpty then (.ignored, store)
    else if !(isAuthorized cfg m.userId m.chatId) then (.unauthorized, store)
    else if t == "/start".data then (.welcome, store)
    else if t == "/help".data then (.help, store)
    else
      match (if m.replyFromBot then getCurrentChatSession store m.chatId else none) with
      | some cur =>
        let r := processCommand store now cur.token t
        (.replyDispatch cur.token t r.1, r.2)
      | none =>
        match parseFormats t with
        | some (tok, cmd) =>
          let r := processCommand store now tok cmd
          (.cmdDispatch tok cmd r.1, r.2)
        | none => (.invalidFormat, store)

/-! ## Callback-query handling (`_handleCallbackQuery`, lines 183-229)

Note: this handler performs no authorization check. -/

/-- The fields of a callback-query update the handler reads. -/
structure CallbackQuery where
  chatId : Int
  data : List Char
deriving DecidableEq, Repr

/-- Observable outcome of `_handleCallbackQuery`. -/
inductive CbOutcome
  | personalInfo (token : List Char)
  | groupInfo (token : List Char)
  | copyInfo (token : List Char)
  | formatInfo (token : List Char)
  | quickDispatch (token command : List Char) (res : CmdOutcome)
  | sessionHelp (token : List Char)
  | unhandled
deriving DecidableEq, Repr

/-- `data.split(':')[1]`. -/
def part1 (parts : List (List Char)) : List Char := parts.getD 1 []

/-- `_handleCallbackQuery`: prefix dispatch over the payload; `quickcmd`
re-joins the tail on `:` and forwards to `_processCommand`. -/
def handleCallbackQuery (store : SessionStore) (now : Nat) (q : CallbackQuery) :
    CbOutcome × SessionStore :=
  let d := q.data
  if leadsWith "personal:".data d then (.personalInfo (part1 (jsSplit ':' d)), store)
  else if leadsWith "group:".data d then (.groupInfo (part1 (jsSplit ':' d)), store)
  else if leadsWith "copy:".data d then (.copyInfo (part1 (jsSplit ':' d)), store)
  else if leadsWith "format:".data d then (.formatInfo (part1 (jsSplit ':' d)), store)
  else if leadsWith "quickcmd:".data d then
    let parts := jsSplit ':' d
    let tok := part1 parts
    let cmd := joinColon (parts.drop 2)
    let r := processCommand store now tok cmd
    (.quickDispatch tok cmd r.1, r.2)
  else if leadsWith "session:".data d then (.sessionHelp (part1 (jsSplit ':' d)), store)
  else (.unhandled, store)

/-! ## Token generation (`_generateToken`, channel lines 56-64) -/

/-- The generator's alphabet (uppercase letters + digits). -/
def tokenAlphabet : List Char := "ABCDEFGHIJKLMNOPQRSTUVWXYZ0123456789".data

/-- `_generateToken` with the eight draws of
`Math.floor(Math.random() * chars.length)` made explicit: each draw is an
index below 36, and the corresponding characters are concatenated. -/
def generateToken (draws : Fin 8 → Fin 36) : List Char :=
  List.ofFn (fun i => tokenAlphabet.getD (draws i).val 'A')

/-! ## Session creation (`_createSession`, channel lines 242-260) -/

/-- `_createSession` at clock reading `nowMs` (`Date.now()` in epoch
milliseconds): `createdAt = floor(now/1000)`,
`expiresAt = floor((now + 24*60*60*1000)/1000)`. -/
def createSession (nowMs : Nat) (sessionId token : List Char) (n : Notification) :
    Session :=
  { id := sessionId
    token := token
    tmuxSession := some (match n.metadata with
      | some md => if md.tmuxSession.isEmpty then "default".data else md.tmuxSession
      | none => "default".data)
    project := n.project
    createdAt := nowMs / 1000
    expiresAt := (nowMs + 24 * 60 * 60 * 1000) / 1000 }

/-! ## Outbound send (`_sendImpl`, channel lines 104-173) -/

/-- `_validateConfig`: a bot token plus a chat or group id. -/
def validateConfig (cfg : TelegramConfig) : Bool :=
  jsTruthy cfg.botToken && (jsTruthy cfg.chatId || jsTruthy cfg.groupId)

/-- How `_sendImpl` returns: configuration error (throw), `true` on a
delivered message, `false` on a transport error. -/
inductive SendResult
  | notConfigured
  | sent
  | failed
deriving DecidableEq, Repr

/-- `_sendImpl` restricted to its store effects: create the session record,
attempt the HTTP send (its success is the external input `sendOk`), and on
failure clean up the just-created record before returning.  Message
formatting and the metadata enrichment do not touch the store. -/
def sendImpl (cfg : TelegramConfig) (store : SessionStore) (nowMs : Nat)
    (sessionId token : List Char) (n : Notification) (sendOk : Bool) :
    SendResult × SessionStore :=
  if !(validateConfig cfg) then (.notConfigured, store)
  else
    let s := createSession nowMs sessionId token n
    let store1 := putSessionFile store s
    if sendOk then (.sent, store1) else (.failed, removeSession store1 sessionId)

/-! ## Help text (`_sendHelpMessage`, webhook lines 241-255) -/

/-- The help message sent for `/help`, verbatim. -/
def helpMessage : List Char :=
  ("📚 Claude Code Remote Bot Help\n\n"
    ++ "Commands:\n"
    ++ "• /start - Welcome message\n"
    ++ "• /help - Show this help\n"
    ++ "• /cmdTOKEN command - Send command to Claude\n\n"
    ++ "Example:\n"
    ++ "/cmdABC12345 analyze the performance of this function\n\n"
    ++ "Tips:\n"
    ++ "• Tokens are case-insensitive\n"
    ++ "• Tokens persist for 7 days\n"
    ++ "• You can also just type TOKEN command without /cmd").data

/-- The TTL stamped on created sessions, in seconds (24 hours). -/
def sessionTtlSeconds : Nat := 24 * 60 * 60

/-- The TTL the help text advertises, in seconds (7 days). -/
def advertisedTtlSeconds : Nat := 7 * 24 * 60 * 60

/-! ## Outbound message formatting (`_generateTelegramMessage`, channel
lines 175-240)

The only floating-point operation, `Math.floor(remainingSpace * 0.3)`, is
modelled as `3 * remainingSpace / 10`; for the integer operand range that
occurs here (0 ≤ remainingSpace < 4000) the double computation agrees with
the exact value. -/

def questionHeader : List Char := "📝 *Your Question:*\n".data
def responseHeader : List Char := "🤖 *Claude Response:*\n".data
def sectionSep : List Char := "\n\n".data

/-- `substring(0, maxLen - 3) + '...'` applied when the text overflows. -/
def truncateTo (maxLen : Int) (s : List Char) : List Char :=
  if (s.length : Int) > maxLen then s.take (maxLen - 3).toNat ++ "...".data else s

/-- The user-question section, given the remaining budget. -/
def questionSection (q : List Char) (remaining : Int) : List Char :=
  if !q.isEmpty && remaining > 50 then
    let hl : Int := (questionHeader.length : Int) + (sectionSep.length : Int)
    let maxQ : Int := min 500 (3 * remaining / 10 - hl)
    if maxQ > 20 then questionHeader ++ truncateTo maxQ q ++ sectionSep else []
  else []

/-- The Claude-response section, given the remaining budget. -/
def responseSection (resp : List Char) (remaining : Int) : List Char :=
  if !resp.isEmpty && remaining > 50 then
    let hl : Int := (responseHeader.length : Int) + (sectionSep.length : Int)
    let maxR : Int := remaining - hl - 10
    if maxR > 20 then responseHeader ++ truncateTo maxR resp ++ sectionSep else []
  else []

/-- Both metadata sections; the second sees the budget minus what the first
consumed (`remainingSpace -= headerLength + questionText.length`). -/
def metaSections (md : NotifMetadata) (avail : Int) : List Char :=
  let s1 := questionSection md.userQuestion avail
  s1 ++ responseSection md.claudeResponse (avail - s1.length)

def notifEmoji (ty : List Char) : List Char :=
  if ty == "completed".data then "✅".data else "⏳".data

def notifStatus (ty : List Char) : List Char :=
  if ty == "completed".data then "Completed".data else "Waiting for Input".data

/-- The status/project/token lines that open the message. -/
def notifHeader (n : Notification) (token : List Char) : List Char :=
  notifEmoji n.type ++ " *Claude Task ".data ++ notifStatus n.type ++ "*\n".data
    ++ "*Project:* ".data ++ n.project ++ "\n".data
    ++ "*Session Token:* `".data ++ token ++ "`\n\n".data

/-- The command-format footer that closes the message. -/
def notifFooter (token : List Char) : List Char :=
  "💬 *To send a new command:*\n".data
    ++ "Reply with: `/cmd ".data ++ token ++ " <your command>`\n".data
    ++ "Example: `/cmd ".data ++ token ++ " Please analyze this code`".data

/-- The `fixedContent` whose length the code measures first (it is exactly
the header followed by the footer). -/
def fixedContent (n : Notification) (token : List Char) : List Char :=
  notifHeader n token ++ notifFooter token

/-- `_generateTelegramMessage`: header, optional budget-limited metadata
sections (`availableSpace = 4000 - fixedContent.length`, only used when
above 100), footer. -/
def generateTelegramMessage (n : Notification) (token : List Char) : List Char :=
  let avail : Int := 4000 - ((fixedContent n token).length : Int)
  let sections : List Char :=
    match n.metadata with
    | some md => if avail > 100 then metaSections md avail else []
    | none => []
  notifHeader n token ++ sections ++ notifFooter token

/-! ## Side conditions and concrete records used by the theorems -/

/-- A command survives the `\s+(.+)$` tail unchanged iff it is nonempty,
does not start with whitespace (the greedy `\s+` would consume it) and
contains no line terminator (`.` never matches one). -/
def goodCmd (l : List Char) : Bool :=
  match l with
  | [] => false
  | c :: _ => !(isJsWs c) && cmdOk l

/-- A stored session used by the concrete scenarios. -/
def wSession : Session :=
  { id := "S1".data, token := "ABC12345".data, tmuxSession := some "work".data
    project := "proj".data, createdAt := 0, expiresAt := 100 }

/-- The chat-7 current session used by the reply-shortcut scenario. -/
def wCurSession : Session :=
  { id := "S2".data, token := "XYZ98765".data, tmuxSession := some "main".data
    project := "proj".data, createdAt := 0, expiresAt := 1000 }

/-- A store holding just `wSession`. -/
def wStore : SessionStore := { files := [wSession], currentByChat := [] }

/-- A store where chat 7 has `wCurSession` as its current session. -/
def wReplyStore : SessionStore :=
  { files := [wSession, wCurSession], currentByChat := [(7, wCurSession)] }

/-- A config whitelisting chat/user 7. -/
def wCfgChat7 : TelegramConfig :=
  { botToken := some "bt".data, chatId := none, groupId := none
    whitelist := ["7".data] }

/-- A config whitelisting only id 111 (so caller 999 is unauthorized). -/
def wCfgAllow111 : TelegramConfig :=
  { botToken := some "bt".data, chatId := none, groupId := none
    whitelist := ["111".data] }

/-- A valid send config (bot token plus chat id). -/
def wSendCfg : TelegramConfig :=
  { botToken := some "bt".data, chatId := some "7".data, groupId := none
    whitelist := [] }

/-- A reply-to-bot message in chat 7 whose text is itself a bare-format
command. -/
def wReplyMsg : IncomingMessage :=
  { chatId := 7, userId := 7, text := some "ABC12345 do it".data, replyFromBot := true }

/-- A message from the unauthorized caller 999. -/
def wUnauthMsg : IncomingMessage :=
  { chatId := 999, userId := 999, text := some "hello".data, replyFromBot := false }

/-- A notification without metadata. -/
def wNotifPlain : Notification :=
  { type := "completed".data, project := "proj".data, metadata := none }

/-- A notification with metadata. -/
def wNotifMeta : Notification :=
  { type := "completed".data, project := "proj".data
    metadata := some { userQuestion := "what next?".data
                       claudeResponse := "done".data
                       tmuxSession := "work".data } }

/-! ## Parser lemmas -/

lemma not_ws_of_tokenCI (c : Char) (h : isTokenCharCI c = true) : isJsWs c = false := by
  cases hw : isJsWs c
  · rfl
  · exfalso
    simp only [isJsWs, Bool.or_eq_true, beq_iff_eq] at hw
    rcases hw with ((((((rfl | rfl) | rfl) | rfl) | rfl) | rfl) | rfl) <;>
      exact absurd h (by decide)

lemma ne_slash_of_tokenCI (c : Char) (h : isTokenCharCI c = true) : (c == '/') = false := by
  cases hq : c == '/'
  · rfl
  · exfalso
    rw [beq_iff_eq] at hq
    subst hq
    exact absurd h (by decide)

lemma takeChars_all (p : Char → Bool) (l : List Char) :
    ∀ rest : List Char, l.all p = true →
      takeChars l.length p (l ++ rest) = some (l, rest) := by
  induction l with
  | nil => intro rest _; rfl
  | cons c cs ih =>
    intro rest h
    simp only [List.all_cons, Bool.and_eq_true] at h
    simp only [List.length_cons, List.cons_append, takeChars, h.1, if_true, List.append_eq]
    rw [ih rest h.2]
    rfl

lemma takeChars_none (p : Char → Bool) (l : List Char) :
    ∀ rest : List Char, l.all p = false →
      takeChars l.length p (l ++ rest) = none := by
  induction l with
  | nil => intro rest h; simp at h
  | cons c cs ih =>
    intro rest h
    simp only [List.all_cons, Bool.and_eq_false_iff] at h
    simp only [List.length_cons, List.cons_append, takeChars, List.append_eq]
    split
    · rename_i hpc
      rcases h with h | h
      · exact absurd hpc (by simp [h])
      · rw [ih rest h]
        rfl
    · rfl

lemma matchSepCmd_space (C : List Char) (h : goodCmd C = true) :
    matchSepCmd (' ' :: C) = some C := by
  match C with
  | [] => simp [goodCmd] at h
  | c :: cs =>
    simp only [goodCmd, Bool.and_eq_true, Bool.not_eq_true'] at h
    unfold matchSepCmd
    simp only [List.takeWhile, List.dropWhile, show isJsWs ' ' = true from rfl, h.1,
      List.reverse_cons, List.reverse_nil, List.nil_append]
    simp [seekCmd, h.2]

lemma stripSlashCmd_cons_none (a : Char) (l : List Char) (h : (a == '/') = false) :
    stripSlashCmd (a :: l) = none := by
  rcases l with _ | ⟨b, _ | ⟨c, _ | ⟨d, rest⟩⟩⟩
  · rfl
  · rfl
  · rfl
  · simp [stripSlashCmd, h]

lemma parseAttached_attached (T C : List Char) (hT8 : T.length = 8)
    (hTa : T.all isTokenCharCI = true) (hC : goodCmd C = true) :
    parseAttached ('/' :: 'c' :: 'm' :: 'd' :: (T ++ ' ' :: C)) = some (upperL T, C) := by
  have h1 : takeChars 8 isTokenCharCI (T ++ ' ' :: C) = some (T, ' ' :: C) := by
    rw [show (8 : Nat) = T.length from hT8.symm]
    exact takeChars_all _ _ _ hTa
  have h2 := matchSepCmd_space C hC
  simp only [parseAttached]
  rw [show stripSlashCmd ('/' :: 'c' :: 'm' :: 'd' :: (T ++ ' ' :: C))
        = some (T ++ ' ' :: C) from rfl]
  simp only [h1, h2]

lemma parseAttached_ws_after_cmd (X : List Char) :
    parseAttached ('/' :: 'c' :: 'm' :: 'd' :: ' ' :: X) = none := rfl

lemma parseSpaced_spaced (T C : List Char) (hT8 : T.length = 8)
    (hTa : T.all isTokenCharCI = true) (hC : goodCmd C = true) :
    parseSpaced ('/' :: 'c' :: 'm' :: 'd' :: ' ' :: (T ++ ' ' :: C)) = some (upperL T, C) := by
  rcases T with _ | ⟨t, ts⟩
  · simp at hT8
  · have ht : isTokenCharCI t = true := by
      simp only [List.all_cons, Bool.and_eq_true] at hTa
      exact hTa.1
    have h1 : takeChars 8 isTokenCharCI ((t :: ts) ++ ' ' :: C) = some (t :: ts, ' ' :: C) := by
      rw [show (8 : Nat) = (t :: ts).length from hT8.symm]
      exact takeChars_all _ _ _ hTa
    have h2 := matchSepCmd_space C hC
    simp only [parseSpaced]
    rw [show stripSlashCmd ('/' :: 'c' :: 'm' :: 'd' :: ' ' :: ((t :: ts) ++ ' ' :: C))
          = some (' ' :: ((t :: ts) ++ ' ' :: C)) from rfl]
    simp only [List.cons_append, List.takeWhile, List.dropWhile,
      show isJsWs ' ' = true from rfl, not_ws_of_tokenCI t ht, List.isEmpty_cons,
      Bool.false_eq_true, if_false, List.append_eq]
    rw [show (t :: (ts ++ ' ' :: C)) = ((t :: ts) ++ ' ' :: C) from rfl]
    simp only [h1, h2]

lemma parseBare_bare (T C : List Char) (hT8 : T.length = 8)
    (hUC : T.all isTokenCharUC = true) (hC : goodCmd C = true) :
    parseBare (T ++ ' ' :: C) = some (upperL T, C) := by
  have h1 : takeChars 8 isTokenCharUC (T ++ ' ' :: C) = some (T, ' ' :: C) := by
    rw [show (8 : Nat) = T.length from hT8.symm]
    exact takeChars_all _ _ _ hUC
  have h2 := matchSepCmd_space C hC
  simp only [parseBare, h1, h2]

lemma parseBare_not_uc (T C : List Char) (hT8 : T.length = 8)
    (hUC : T.all isTokenCharUC = false) :
    parseBare (T ++ ' ' :: C) = none := by
  have h1 : takeChars 8 isTokenCharUC (T ++ ' ' :: C) = none := by
    rw [show (8 : Nat) = T.length from hT8.symm]
    exact takeChars_none _ _ _ hUC
  simp only [parseBare, h1]

lemma parseAttached_bare_none (T C : List Char) (hT8 : T.length = 8)
    (hTa : T.all isTokenCharCI = true) :
    parseAttached (T ++ ' ' :: C) = none := by
  rcases T with _ | ⟨t, ts⟩
  · simp at hT8
  · have ht : isTokenCharCI t = true := by
      simp only [List.all_cons, Bool.and_eq_true] at hTa
      exact hTa.1
    simp only [parseAttached, List.cons_append]
    rw [stripSlashCmd_cons_none t _ (ne_slash_of_tokenCI t ht)]

lemma parseSpaced_bare_none (T C : List Char) (hT8 : T.length = 8)
    (hTa : T.all isTokenCharCI = true) :
    parseSpaced (T ++ ' ' :: C) = none := by
  rcases T with _ | ⟨t, ts⟩
  · simp at hT8
  · have ht : isTokenCharCI t = true := by
      simp only [List.all_cons, Bool.and_eq_true] at hTa
      exact hTa.1
    simp only [parseSpaced, List.cons_append]
    rw [stripSlashCmd_cons_none t _ (ne_slash_of_tokenCI t ht)]

/-! ## Split/join lemmas for callback payloads -/

lemma jsSplit_ne_nil (sep : Char) (l : List Char) : jsSplit sep l ≠ [] := by
  cases l with
  | nil => simp [jsSplit]
  | cons c rest =>
    simp only [jsSplit]
    split
    · simp
    · split
      · simp
      · simp

lemma jsSplit_through (sep : Char) (P : List Char) :
    ∀ rest : List Char, sep ∉ P → jsSplit sep (P ++ sep :: rest) = P :: jsSplit sep rest := by
  induction P with
  | nil => intro rest _; simp [jsSplit]
  | cons c cs ih =>
    intro rest hP
    have hc : (c == sep) = false := by
      rw [beq_eq_false_iff_ne]
      intro h
      exact hP (h ▸ List.mem_cons_self c cs)
    have hcs : sep ∉ cs := fun hm => hP (List.mem_cons_of_mem c hm)
    simp only [List.cons_append, jsSplit, hc, Bool.false_eq_true, if_false, List.append_eq]
    rw [ih rest hcs]

lemma joinColon_cons_cons (c : Char) (h : List Char) (t : List (List Char)) :
    joinColon ((c :: h) :: t) = c :: joinColon (h :: t) := by
  cases t <;> rfl

lemma joinColon_jsSplit (l : List Char) : joinColon (jsSplit ':' l) = l := by
  induction l with
  | nil => rfl
  | cons c cs ih =>
    obtain ⟨h, t, he⟩ : ∃ h t, jsSplit ':' cs = h :: t := by
      cases hs : jsSplit ':' cs with
      | nil => exact absurd hs (jsSplit_ne_nil ':' cs)
      | cons h t => exact ⟨h, t, rfl⟩
    rw [he] at ih
    by_cases hc : c = ':'
    · subst hc
      simp only [jsSplit, beq_self_eq_true, if_true, he]
      show ([] : List Char) ++ ':' :: joinColon (h :: t) = ':' :: cs
      simp [ih]
    · have hc' : (c == ':') = false := by rw [beq_eq_false_iff_ne]; exact hc
      simp only [jsSplit, hc', Bool.false_eq_true, if_false, he]
      rw [joinColon_cons_cons]
      rw [ih]

/-! ## Claim C2 — token case handling.

The claim as stated is refuted: the bare format's regex has no `i` flag, so
a lowercase token in bare form does not parse at all (while both prefixed
forms accept it and uppercase it). -/

/-- Claim C2, counterexample: the mixed-case token `abc12345` is accepted by
the prefixed-attached format (normalized to `ABC12345`) but the bare form
`abc12345 y` matches no format, contradicting "every textual command format
matches it". -/
theorem bare_format_case_sensitive_cex :
    parseFormats "abc12345 y".data = none
    ∧ parseFormats "/cmdabc12345 y".data = some ("ABC12345".data, "y".data) := by
  constructor
  · decide
  · decide

/-- Claim C2 (amended): for every 8-character ASCII-alphanumeric token in any
mixture of case and every well-formed command, both prefixed formats match
and uppercase the token, while the bare format matches exactly when the
token is already over `[A-Z0-9]`. -/
theorem parser_case_handling (T C : List Char)
    (hT8 : T.length = 8) (hTa : T.all isTokenCharCI = true) (hC : goodCmd C = true) :
    parseFormats ("/cmd".data ++ T ++ ' ' :: C) = some (upperL T, C)
    ∧ parseFormats ("/cmd ".data ++ T ++ ' ' :: C) = some (upperL T, C)
    ∧ parseFormats (T ++ ' ' :: C)
        = (if T.all isTokenCharUC then some (upperL T, C) else none) := by
  refine ⟨?_, ?_, ?_⟩
  · show parseFormats ('/' :: 'c' :: 'm' :: 'd' :: (T ++ ' ' :: C)) = some (upperL T, C)
    simp only [parseFormats, parseAttached_attached T C hT8 hTa hC]
  · show parseFormats ('/' :: 'c' :: 'm' :: 'd' :: ' ' :: (T ++ ' ' :: C)) = some (upperL T, C)
    simp only [parseFormats, parseAttached_ws_after_cmd,
      parseSpaced_spaced T C hT8 hTa hC]
  · cases hUC : T.all isTokenCharUC
    · simp only [Bool.false_eq_true, if_false, parseFormats,
        parseAttached_bare_none T C hT8 hTa, parseSpaced_bare_none T C hT8 hTa,
        parseBare_not_uc T C hT8 hUC]
    · simp only [if_true, parseFormats, parseAttached_bare_none T C hT8 hTa,
        parseSpaced_bare_none T C hT8 hTa, parseBare_bare T C hT8 hUC hC]

/-- Claim C2 witness at the mixed-case token `aB3xY9k2` and command `go`. -/
theorem parser_case_handling_witness :
    parseFormats ("/cmd".data ++ "aB3xY9k2".data ++ ' ' :: "go".data)
      = some (upperL "aB3xY9k2".data, "go".data)
    ∧ parseFormats ("/cmd ".data ++ "aB3xY9k2".data ++ ' ' :: "go".data)
      = some (upperL "aB3xY9k2".data, "go".data)
    ∧ parseFormats ("aB3xY9k2".data ++ ' ' :: "go".data)
      = (if "aB3xY9k2".data.all isTokenCharUC
         then some (upperL "aB3xY9k2".data, "go".data) else none) :=
  parser_case_handling "aB3xY9k2".data "go".data (by decide) (by decide) (by decide)

/-! ## Claim C3 — round-trip of the three textual forms. -/

/-- Claim C3, counterexample: the command `a` + newline + `b` is non-empty,
yet none of the three forms parses (`.` in `(.+)$` matches no line
terminator), contradicting "C passed through uninterpreted" for every
non-empty C. -/
theorem command_newline_cex :
    parseFormats "/cmdABC12345 a\nb".data = none
    ∧ parseFormats "/cmd ABC12345 a\nb".data = none
    ∧ parseFormats "ABC12345 a\nb".data = none := by
  refine ⟨?_, ?_, ?_⟩ <;> decide

/-- Claim C3 (amended): for an 8-character token over `[A-Z0-9]` and a
non-empty command with no leading whitespace and no line terminator, all
three forms parse to the same uppercased-token/verbatim-command pair. -/
theorem parser_roundtrip (T C : List Char)
    (hT8 : T.length = 8) (hTa : T.all isTokenCharCI = true)
    (hUC : T.all isTokenCharUC = true) (hC : goodCmd C = true) :
    parseFormats ("/cmd".data ++ T ++ ' ' :: C) = some (upperL T, C)
    ∧ parseFormats ("/cmd ".data ++ T ++ ' ' :: C) = some (upperL T, C)
    ∧ parseFormats (T ++ ' ' :: C) = some (upperL T, C) := by
  refine ⟨?_, ?_, ?_⟩
  · show parseFormats ('/' :: 'c' :: 'm' :: 'd' :: (T ++ ' ' :: C)) = some (upperL T, C)
    simp only [parseFormats, parseAttached_attached T C hT8 hTa hC]
  · show parseFormats ('/' :: 'c' :: 'm' :: 'd' :: ' ' :: (T ++ ' ' :: C)) = some (upperL T, C)
    simp only [parseFormats, parseAttached_ws_after_cmd,
      parseSpaced_spaced T C hT8 hTa hC]
  · simp only [parseFormats, parseAttached_bare_none T C hT8 hTa,
      parseSpaced_bare_none T C hT8 hTa, parseBare_bare T C hT8 hUC hC]

/-- Claim C3 witness at token `ABC12345` and command `do X`. -/
theorem parser_roundtrip_witness :
    parseFormats ("/cmd".data ++ "ABC12345".data ++ ' ' :: "do X".data)
      = some (upperL "ABC12345".data, "do X".data)
    ∧ parseFormats ("/cmd ".data ++ "ABC12345".data ++ ' ' :: "do X".data)
      = some (upperL "ABC12345".data, "do X".data)
    ∧ parseFormats ("ABC12345".data ++ ' ' :: "do X".data)
      = some (upperL "ABC12345".data, "do X".data) :=
  parser_roundtrip "ABC12345".data "do X".data (by decide) (by decide) (by decide) (by decide)

/-! ## Claim C1 — expiry semantics of token lookup. -/

/-- Claim C1, counterexample: `wSession` expires at 100, and a lookup exactly
at `now = expiresAt = 100` still dispatches the command and leaves the store
untouched (`session.expiresAt < now` is strict), contradicting "at or after
expiresAt". -/
theorem expiry_boundary_cex :
    (processCommand wStore 100 "ABC12345".data "go".data).1
      = CmdOutcome.dispatched "go".data "work".data
    ∧ (processCommand wStore 100 "ABC12345".data "go".data).2 = wStore := by
  constructor
  · decide
  · decide

/-- Claim C1 (amended): a lookup strictly after `expiresAt` yields the
expired-token reply with no dispatch, deletes the record, and a subsequent
lookup of the same token (unique to that record) finds nothing. -/
theorem token_expired_strictly_after (store : SessionStore) (now : Nat)
    (tok cmd : List Char) (s : Session)
    (hfind : findSessionByToken store tok = some s)
    (hexp : s.expiresAt < now)
    (huniq : ∀ r ∈ store.files, upperL r.token = upperL tok → r.id = s.id) :
    processCommand store now tok cmd = (CmdOutcome.expired s.id, removeSession store s.id)
    ∧ findSessionByToken (removeSession store s.id) tok = none := by
  constructor
  · simp only [processCommand, hfind, if_pos hexp]
  · have hA : getSessionByToken (removeSession store s.id) tok = none := by
      simp only [getSessionByToken, removeSession]
      rw [List.find?_eq_none]
      intro x hx
      simp only [List.mem_filter, Bool.not_eq_true', beq_eq_false_iff_ne] at hx
      intro hbe
      rw [beq_iff_eq] at hbe
      exact hx.2 (huniq x hx.1 hbe)
    have hB : (removeSession store s.id).files.find? (fun r => r.token == tok) = none := by
      simp only [removeSession]
      rw [List.find?_eq_none]
      intro x hx
      simp only [List.mem_filter, Bool.not_eq_true', beq_eq_false_iff_ne] at hx
      intro hbe
      rw [beq_iff_eq] at hbe
      exact hx.2 (huniq x hx.1 (by rw [hbe]))
    simp only [findSessionByToken, hA, hB]

/-- Claim C1 witness: one second past expiry the token is rejected, the
record deleted, and the token no longer resolves. -/
theorem token_expired_strictly_after_witness :
    processCommand wStore 101 "ABC12345".data "go".data
      = (CmdOutcome.expired wSession.id, removeSession wStore wSession.id)
    ∧ findSessionByToken (removeSession wStore wSession.id) "ABC12345".data = none :=
  token_expired_strictly_after wStore 101 "ABC12345".data "go".data wSession
    (by decide) (by decide) (by decide)

/-! ## Claim C4 — reply-shortcut priority. -/

/-- Claim C4: for an authorized reply-to-bot message in a chat with a
current session, the whole (trimmed) text becomes the command and the token
comes from the current session, even though the text itself parses under a
prefixed or bare format. -/
theorem reply_shortcut_priority (cfg : TelegramConfig) (store : SessionStore)
    (now : Nat) (m : IncomingMessage) (raw : List Char) (cur : Session)
    (tok cmd : List Char)
    (hraw : m.text = some raw)
    (hne : jsTrim raw ≠ [])
    (hauth : isAuthorized cfg m.userId m.chatId = true)
    (hreply : m.replyFromBot = true)
    (hcur : getCurrentChatSession store m.chatId = some cur)
    (hparse : parseFormats (jsTrim raw) = some (tok, cmd)) :
    handleMessage cfg store now m
      = (MsgOutcome.replyDispatch cur.token (jsTrim raw)
           (processCommand store now cur.token (jsTrim raw)).1,
         (processCommand store now cur.token (jsTrim raw)).2) := by
  have h0 : (jsTrim raw).isEmpty = false := by
    cases he : (jsTrim raw).isEmpty
    · rfl
    · exact absurd (List.isEmpty_iff.mp he) hne
  have hs : (jsTrim raw == "/start".data) = false := by
    cases hq : jsTrim raw == "/start".data
    · rfl
    · rw [beq_iff_eq] at hq
      rw [hq] at hparse
      simp [show parseFormats "/start".data = none from by decide] at hparse
  have hh : (jsTrim raw == "/help".data) = false := by
    cases hq : jsTrim raw == "/help".data
    · rfl
    · rw [beq_iff_eq] at hq
      rw [hq] at hparse
      simp [show parseFormats "/help".data = none from by decide] at hparse
  simp only [handleMessage, hraw, h0, hauth, hs, hh, hreply, hcur, Bool.not_true,
    Bool.false_eq_true, if_false, if_true]

/-- Claim C4 witness: in chat 7 (current session `XYZ98765`), the reply text
`ABC12345 do it` — itself a valid bare-format command for another live
token — is dispatched whole to the current session's token. -/
theorem reply_shortcut_priority_witness :
    handleMessage wCfgChat7 wReplyStore 10 wReplyMsg
      = (MsgOutcome.replyDispatch wCurSession.token (jsTrim "ABC12345 do it".data)
           (processCommand wReplyStore 10 wCurSession.token (jsTrim "ABC12345 do it".data)).1,
         (processCommand wReplyStore 10 wCurSession.token (jsTrim "ABC12345 do it".data)).2) :=
  reply_shortcut_priority wCfgChat7 wReplyStore 10 wReplyMsg "ABC12345 do it".data
    wCurSession "ABC12345".data "do it".data rfl (by decide) (by decide) rfl
    (by decide) (by decide)

/-! ## Claim C5 — the two TTLs disagree. -/

set_option maxRecDepth 8192 in
/-- Claim C5: every created session is stamped with
`expiresAt = createdAt + 86400` (24 hours), while the `/help` text
verbatim advertises "Tokens persist for 7 days" — the advertised TTL does
not equal the stamped one, so the code contradicts its own help text. -/
theorem ttl_help_text_mismatch (nowMs : Nat) (sid tok : List Char) (n : Notification) :
    (createSession nowMs sid tok n).expiresAt
      = (createSession nowMs sid tok n).createdAt + sessionTtlSeconds
    ∧ hasSeq "Tokens persist for 7 days".data helpMessage = true
    ∧ advertisedTtlSeconds ≠ sessionTtlSeconds := by
  refine ⟨?_, by decide, by decide⟩
  simp only [createSession, sessionTtlSeconds]
  omega

/-! ## Claim C6 — cleanup of the session record on send failure. -/

/-- Claim C6: when the outbound send fails, the session record created
during this `_sendImpl` call has been removed again before returning, so
the store is exactly as before the call. -/
theorem send_failure_cleanup (cfg : TelegramConfig) (store : SessionStore)
    (nowMs : Nat) (sid tok : List Char) (n : Notification)
    (hcfg : validateConfig cfg = true)
    (hfresh : ∀ r ∈ store.files, r.id ≠ sid) :
    sendImpl cfg store nowMs sid tok n false = (SendResult.failed, store) := by
  rcases store with ⟨files, cur⟩
  have hq : files.filter (fun r => !(r.id == sid)) = files := by
    rw [List.filter_eq_self]
    intro r hr
    simp only [Bool.not_eq_true', beq_eq_false_iff_ne]
    exact hfresh r hr
  simp only [sendImpl, hcfg, Bool.not_true, Bool.false_eq_true, if_false,
    removeSession, putSessionFile, createSession, List.filter_append, hq]
  simp [hq]

/-- Claim C6 witness: a failing send against `wStore` leaves `wStore`
unchanged and reports the failure. -/
theorem send_failure_cleanup_witness :
    sendImpl wSendCfg wStore 5000 "NEW1".data "ZZZ11111".data wNotifPlain false
      = (SendResult.failed, wStore) :=
  send_failure_cleanup wSendCfg wStore 5000 "NEW1".data "ZZZ11111".data wNotifPlain
    (by decide) (by decide)

/-! ## Claim C7 — the authorization gate. -/

/-- Claim C7, counterexample: caller/chat 999 fails the authorization check
under `wCfgAllow111`, yet its `quickcmd` callback payload is processed all
the way to a session lookup and command dispatch — the callback-query path
has no authorization gate. -/
theorem callback_no_auth_cex :
    isAuthorized wCfgAllow111 999 999 = false
    ∧ (handleCallbackQuery wStore 10 ⟨999, "quickcmd:ABC12345:go".data⟩).1
        = CbOutcome.quickDispatch "ABC12345".data "go".data
            (CmdOutcome.dispatched "go".data "work".data) := by
  constructor
  · decide
  · decide

/-- Claim C7 (amended): on the message path an unauthorized caller with any
non-empty text receives the fixed rejection and nothing else happens — no
parse, no session lookup, no store change. -/
theorem message_auth_gate (cfg : TelegramConfig) (store : SessionStore) (now : Nat)
    (m : IncomingMessage) (raw : List Char)
    (hraw : m.text = some raw)
    (hne : (jsTrim raw).isEmpty = false)
    (hauth : isAuthorized cfg m.userId m.chatId = false) :
    handleMessage cfg store now m = (MsgOutcome.unauthorized, store) := by
  simp only [handleMessage, hraw, hne, hauth, Bool.not_false, Bool.false_eq_true,
    if_false, if_true]

/-- Claim C7 witness: the unauthorized message from caller 999 is rejected
with the store untouched. -/
theorem message_auth_gate_witness :
    handleMessage wCfgAllow111 wStore 10 wUnauthMsg = (MsgOutcome.unauthorized, wStore) :=
  message_auth_gate wCfgAllow111 wStore 10 wUnauthMsg "hello".data rfl
    (by decide) (by decide)

/-! ## Claim C8 — generated tokens are 8 characters over `[A-Z0-9]`. -/

/-- Claim C8: whatever the eight random draws, the generated token has
length 8 and every character is an uppercase letter or digit. -/
theorem generated_token_wellformed (draws : Fin 8 → Fin 36) :
    (generateToken draws).length = 8
    ∧ (generateToken draws).all isTokenCharUC = true := by
  constructor
  · simp [generateToken]
  · rw [List.all_eq_true]
    intro c hc
    rw [generateToken, List.mem_ofFn] at hc
    obtain ⟨i, rfl⟩ := hc
    exact (show ∀ j : Fin 36, isTokenCharUC (tokenAlphabet.getD j.val 'A') = true
      from by decide) (draws i)

/-! ## Claim C9 — quick-command payload round-trip. -/

/-- Claim C9: for a colon-free token `T` and a non-empty command `C` (colons
allowed), handling the payload `quickcmd:T:C` recovers exactly `(T, C)` and
forwards that pair to command processing. -/
theorem quickcmd_roundtrip (store : SessionStore) (now : Nat) (chat : Int)
    (T C : List Char) (hT : (':' : Char) ∉ T) (_hC : C ≠ []) :
    handleCallbackQuery store now ⟨chat, "quickcmd:".data ++ T ++ ':' :: C⟩
      = (CbOutcome.quickDispatch T C (processCommand store now T C).1,
         (processCommand store now T C).2) := by
  have hsplit : jsSplit ':' ("quickcmd:".data ++ T ++ ':' :: C)
      = "quickcmd".data :: T :: jsSplit ':' C := by
    rw [show "quickcmd:".data ++ T ++ ':' :: C
          = "quickcmd".data ++ ':' :: (T ++ ':' :: C) from rfl]
    rw [jsSplit_through ':' "quickcmd".data (T ++ ':' :: C) (by decide)]
    rw [jsSplit_through ':' T C hT]
  have hred : handleCallbackQuery store now ⟨chat, "quickcmd:".data ++ T ++ ':' :: C⟩
      = (CbOutcome.quickDispatch
           (part1 (jsSplit ':' ("quickcmd:".data ++ T ++ ':' :: C)))
           (joinColon ((jsSplit ':' ("quickcmd:".data ++ T ++ ':' :: C)).drop 2))
           (processCommand store now
             (part1 (jsSplit ':' ("quickcmd:".data ++ T ++ ':' :: C)))
             (joinColon ((jsSplit ':' ("quickcmd:".data ++ T ++ ':' :: C)).drop 2))).1,
         (processCommand store now
           (part1 (jsSplit ':' ("quickcmd:".data ++ T ++ ':' :: C)))
           (joinColon ((jsSplit ':' ("quickcmd:".data ++ T ++ ':' :: C)).drop 2))).2) := rfl
  rw [hred, hsplit]
  simp only [part1, List.getD_cons_succ, List.getD_cons_zero, List.drop_succ_cons,
    List.drop_zero, joinColon_jsSplit]

/-- Claim C9 witness at token `ABC12345` and the colon-containing command
`git push` via payload `quickcmd:ABC12345:git push`. -/
theorem quickcmd_roundtrip_witness :
    handleCallbackQuery wStore 10 ⟨7, "quickcmd:".data ++ "ABC12345".data ++ ':' :: "git push".data⟩
      = (CbOutcome.quickDispatch "ABC12345".data "git push".data
           (processCommand wStore 10 "ABC12345".data "git push".data).1,
         (processCommand wStore 10 "ABC12345".data "git push".data).2) :=
  quickcmd_roundtrip wStore 10 7 "ABC12345".data "git push".data (by decide) (by decide)

/-! ## Claim C10 — the outbound message respects the 4000-character budget. -/

lemma truncateTo_length_le (m : Int) (s : List Char) (h : 3 ≤ m) :
    ((truncateTo m s).length : Int) ≤ m := by
  unfold truncateTo
  split
  · rename_i hgt
    simp only [List.length_append, List.length_take,
      show ("...".data).length = 3 from rfl]
    push_cast
    omega
  · rename_i hle
    omega

lemma questionSection_length_le (q : List Char) (a : Int) (ha : 0 ≤ a) :
    ((questionSection q a).length : Int) ≤ a := by
  simp only [questionSection]
  split
  · split
    · rename_i h1 h2
      have ht := truncateTo_length_le
        (min 500 (3 * a / 10 - ((questionHeader.length : Int) + (sectionSep.length : Int))))
        q (by omega)
      simp only [List.length_append]
      push_cast
      omega
    · simpa using ha
  · simpa using ha

lemma responseSection_length_le (resp : List Char) (r : Int) (hr : 0 ≤ r) :
    ((responseSection resp r).length : Int) ≤ r := by
  simp only [responseSection]
  split
  · split
    · rename_i h1 h2
      have ht := truncateTo_length_le
        (r - ((responseHeader.length : Int) + (sectionSep.length : Int)) - 10)
        resp (by omega)
      simp only [List.length_append]
      push_cast
      omega
    · simpa using hr
  · simpa using hr

lemma metaSections_length_le (md : NotifMetadata) (a : Int) (ha : 0 ≤ a) :
    ((metaSections md a).length : Int) ≤ a := by
  simp only [metaSections, List.length_append]
  have h1 := questionSection_length_le md.userQuestion a ha
  have h2 := responseSection_length_le md.claudeResponse
    (a - ((questionSection md.userQuestion a).length : Int)) (by omega)
  push_cast
  omega

/-- Claim C10: whenever the fixed frame (status header, project and token
lines, command-format footer) fits in 4000 characters, the whole generated
notification text does too — the metadata sections only ever consume the
remaining budget. -/
theorem notification_length_bound (n : Notification) (token : List Char)
    (h : (fixedContent n token).length ≤ 4000) :
    (generateTelegramMessage n token).length ≤ 4000 := by
  have hfix : (fixedContent n token).length
      = (notifHeader n token).length + (notifFooter token).length := by
    simp [fixedContent]
  rcases hm : n.metadata with _ | md
  · simp only [generateTelegramMessage, hm]
    simp only [List.length_append, List.length_nil]
    omega
  · simp only [generateTelegramMessage, hm]
    by_cases ha : (4000 : Int) - ((fixedContent n token).length : Int) > 100
    · rw [if_pos ha]
      have hs := metaSections_length_le md
        (4000 - ((fixedContent n token).length : Int)) (by omega)
      simp only [List.length_append]
      omega
    · rw [if_neg ha]
      simp only [List.length_append, List.length_nil]
      omega

set_option maxRecDepth 16384 in
/-- Claim C10 witness at a concrete metadata-bearing notification. -/
theorem notification_length_bound_witness :
    (fixedContent wNotifMeta "ABC12345".data).length ≤ 4000
    ∧ (generateTelegramMessage wNotifMeta "ABC12345".data).length ≤ 4000 :=
  ⟨by decide, notification_length_bound wNotifMeta "ABC12345".data (by decide)⟩
